import Mathlib

/-
Verification of the labeling session manager of the dataset-labeling tool
(apps/web/app/home/labeling/page.tsx and its _components/image-canvas.tsx).

The TypeScript handlers are embedded shallowly:
  * JS numbers holding normalized coordinates become rationals;
  * JS `number | null` / optional fields become `Option`;
  * JS truthiness tests (`!selectedClassId`, `!session.currentImagePath`,
    `session.currentImageId`, `session.currentSuggestionId`) are modelled
    exactly: `null`/`undefined`, `0` and the empty string are falsy;
  * the sequential `for ... await` commit loop of handleSaveAnnotations is
    modelled by explicit recursion over the annotation list, parametrised by
    the store's success/failure outcome for the i-th attempted commit;
  * alerts / silent returns become explicit outcome values.
-/

namespace Labeling

/-- Acquisition mode of the labeling session: `'manual' | 'active_learning'`. -/
inductive Mode
  | manual
  | active_learning
deriving DecidableEq, Repr

/-- A bounding box `[x1, y1, x2, y2]` in normalized image coordinates. -/
structure Box where
  x1 : ℚ
  y1 : ℚ
  x2 : ℚ
  y2 : ℚ
deriving DecidableEq, Repr

/-- One entry of `session.annotations`:
`{ bbox, class_id, class_name }` (page.tsx, `LabelingSession`). -/
structure Annot where
  bbox : Box
  class_id : ℤ
  class_name : String
deriving DecidableEq, Repr

/-- The fields of `CustomDefectType` (types/custom-defects) that the labeling
page reads: `id` and `name` drive annotation creation; the rest is display. -/
structure CustomDefectType where
  id : ℤ
  name : String
  code : String
  color : Option String
  is_active : Bool
  min_samples_required : ℤ
  current_sample_count : ℤ
deriving DecidableEq, Repr

/-- The `LabelingSession` state of page.tsx. -/
structure LabelingSession where
  mode : Mode
  currentImagePath : Option String
  currentImageId : Option String
  currentSuggestionId : Option ℤ
  annotations : List Annot
deriving DecidableEq, Repr

/-- The initial state `{ mode: 'manual', annotations: [] }` (all optional
fields `undefined`), also produced by the resets in save() and skip(). -/
def initialSession : LabelingSession :=
  { mode := Mode.manual
    currentImagePath := none
    currentImageId := none
    currentSuggestionId := none
    annotations := [] }

/-- JS truthiness of an optional string: `undefined` and `""` are falsy. -/
def strTruthy : Option String → Bool
  | none => false
  | some s => !(s == "")

/-- JS truthiness of an optional number: `null`/`undefined` and `0` are falsy. -/
def numTruthy : Option ℤ → Bool
  | none => false
  | some n => !(n == 0)

/-- `handleImageUpload(imagePath, imageId)`: replaces the whole session with a
manual-mode session holding the new image and no annotations. -/
def handleImageUpload (imagePath imageId : String) : LabelingSession :=
  { mode := Mode.manual
    currentImagePath := some imagePath
    currentImageId := some imageId
    currentSuggestionId := none
    annotations := [] }

/-- `handleActiveLearningSelect(imagePath, imageId, suggestionId)`: replaces
the whole session with an active-learning session holding the suggestion. -/
def handleActiveLearningSelect (imagePath imageId : String) (suggestionId : ℤ) :
    LabelingSession :=
  { mode := Mode.active_learning
    currentImagePath := some imagePath
    currentImageId := some imageId
    currentSuggestionId := some suggestionId
    annotations := [] }

/-- The mode-selector buttons: `setSession(prev => ({ ...prev, mode }))`.
Only `mode` changes; image fields, suggestion id and annotations are kept. -/
def setMode (m : Mode) (s : LabelingSession) : LabelingSession :=
  { s with mode := m }

/-- Outcome of `handleAddAnnotation`:
`noClassSelected` is the `alert('Please select a defect class first')` branch
(taken when `selectedClassId` is null or `0`, since `!0` is true in JS);
`classNotFound` is the bare `return` taken when `defectTypes.find` yields
`undefined` (nothing is reported to the user); `added` appends the entry. -/
inductive AddOutcome
  | noClassSelected
  | classNotFound
  | added
deriving DecidableEq, Repr

/-- `handleAddAnnotation(bbox)` of page.tsx, with the component state it reads
(`selectedClassId`, `defectTypes`) passed explicitly. -/
def handleAddAnnot (selectedClassId : Option ℤ) (defectTypes : List CustomDefectType)
    (bbox : Box) (s : LabelingSession) : AddOutcome × LabelingSession :=
  if !(numTruthy selectedClassId) then
    (AddOutcome.noClassSelected, s)
  else
    match selectedClassId with
    | none => (AddOutcome.noClassSelected, s)
    | some cid =>
      match defectTypes.find? (fun t => t.id == cid) with
      | none => (AddOutcome.classNotFound, s)
      | some defectType =>
        (AddOutcome.added,
         { s with annotations := s.annotations ++
            [{ bbox := bbox, class_id := cid, class_name := defectType.name }] })

/-- Result of the canvas `handleMouseUp`: `boxTooSmall` names the branch in
which the minimum-size check `width > 0.005 && height > 0.005` fails and
`onAddAnnotation` is never invoked (the drawn box is silently discarded);
`delegated o` records the outcome of the delegated `handleAddAnnotation`. -/
inductive MouseUpResult
  | boxTooSmall
  | delegated (o : AddOutcome)
deriving DecidableEq, Repr

/-- The commit path of the canvas `handleMouseUp` (image-canvas.tsx): the
finished drag box is forwarded to `onAddAnnotation` = `handleAddAnnotation`
only if both normalized dimensions strictly exceed `0.005`. -/
def handleMouseUp (currentBox : Box) (selectedClassId : Option ℤ)
    (defectTypes : List CustomDefectType) (s : LabelingSession) :
    MouseUpResult × LabelingSession :=
  let width := currentBox.x2 - currentBox.x1
  let height := currentBox.y2 - currentBox.y1
  if (5/1000 : ℚ) < width ∧ (5/1000 : ℚ) < height then
    let r := handleAddAnnot selectedClassId defectTypes currentBox s
    (MouseUpResult.delegated r.1, r.2)
  else
    (MouseUpResult.boxTooSmall, s)

/-- `handleRemoveAnnotation(index)`:
`annotations.filter((_, i) => i !== index)` — keep exactly the entries whose
position differs from `index` (an out-of-range or negative index keeps all). -/
def removeAtIdx (idx : ℤ) (l : List Annot) : List Annot :=
  (l.enum.filter (fun p => !((p.1 : ℤ) == idx))).map Prod.snd

/-- `handleRemoveAnnotation(index)` of page.tsx. -/
def handleRemoveAnnot (idx : ℤ) (s : LabelingSession) : LabelingSession :=
  { s with annotations := removeAtIdx idx s.annotations }

/-- The FormData payload of one `customDefectsAPI.addTrainingSample` call in
the save loop: `defect_type_id`, `image_path`, optional `image_id` (appended
only when `session.currentImageId` is truthy), the serialized
`{bbox, class_name}`, `annotation_format: 'bbox'` and the mode-derived
`source`. -/
structure TrainingSampleCommit where
  defect_type_id : ℤ
  image_path : String
  image_id : Option String
  bbox : Box
  class_name : String
  annotation_format : String
  source : String
deriving DecidableEq, Repr

/-- Builds the FormData of the commit for one annotation, as assembled inside
the `for` loop of `handleSaveAnnotations`. -/
def mkCommit (s : LabelingSession) (path : String) (a : Annot) : TrainingSampleCommit :=
  { defect_type_id := a.class_id
    image_path := path
    image_id := if strTruthy s.currentImageId then s.currentImageId else none
    bbox := a.bbox
    class_name := a.class_name
    annotation_format := "bbox"
    source := if s.mode = Mode.active_learning then "active_learning" else "manual" }

/-- The sequential `for (const annotation of session.annotations) { ... await
addTrainingSample(formData) }` loop. `outcome i` tells whether the store
accepts the i-th attempted commit; a rejected commit throws, so the loop stops
there. Returns the list of attempted commits and whether all succeeded. -/
def runCommits (outcome : ℕ → Bool) (s : LabelingSession) (path : String) :
    List Annot → ℕ → List TrainingSampleCommit × Bool
  | [], _ => ([], true)
  | a :: rest, i =>
    let c := mkCommit s path a
    if outcome i then
      let r := runCommits outcome s path rest (i + 1)
      (c :: r.1, r.2)
    else
      ([c], false)

/-- Outcome of `handleSaveAnnotations`: `emptyAnnotationSet` is the guard
branch `if (!session.currentImagePath || session.annotations.length === 0)`
with its `alert('Please add at least one annotation')`; `commitFailed` is the
catch branch reached when a store commit throws; `success` is the full run. -/
inductive SaveOutcome
  | emptyAnnotationSet
  | commitFailed
  | success
deriving DecidableEq, Repr

/-- `handleSaveAnnotations()` of page.tsx, parametrised by the store outcome
for each attempted commit. Returns the outcome, the resulting session (the
success branch runs `setSession({ mode: 'manual', annotations: [] })`; the
guard and catch branches leave the session untouched), and the list of
commits that were actually issued to the store. -/
def handleSaveAnnotations (outcome : ℕ → Bool) (s : LabelingSession) :
    SaveOutcome × LabelingSession × List TrainingSampleCommit :=
  match s.currentImagePath with
  | none => (SaveOutcome.emptyAnnotationSet, s, [])
  | some path =>
    if path == "" || s.annotations.length == 0 then
      (SaveOutcome.emptyAnnotationSet, s, [])
    else
      let r := runCommits outcome s path s.annotations 0
      if r.2 then
        (SaveOutcome.success, initialSession, r.1)
      else
        (SaveOutcome.commitFailed, s, r.1)

/-- `handleSkip()` of page.tsx. The guarded active-learning branch contains
only the TODO comment `// await customDefectsAPI.skipActiveLearning(...)` —
the call is commented out, so no queue notification is issued in either
branch; the session is then unconditionally reset. Returns the list of
suggestion ids passed to the (never invoked) skip endpoint, paired with the
resulting session. -/
def handleSkip (s : LabelingSession) : List ℤ × LabelingSession :=
  let markSkippedCalls : List ℤ :=
    if s.mode == Mode.active_learning && numTruthy s.currentSuggestionId then
      []
    else
      []
  (markSkippedCalls, initialSession)

/-- The user-triggered operations of the session state machine, with the
external inputs each handler reads passed as constructor arguments. -/
inductive Op
  | selectMode (m : Mode)
  | uploadImage (imagePath imageId : String)
  | alSelect (imagePath imageId : String) (suggestionId : ℤ)
  | addBox (selectedClassId : Option ℤ) (defectTypes : List CustomDefectType) (b : Box)
  | removeBox (i : ℤ)
  | saveAll (outcome : ℕ → Bool)
  | skipImg

/-- One step of the session state machine: the session component of the
corresponding handler. -/
def step (op : Op) (s : LabelingSession) : LabelingSession :=
  match op with
  | Op.selectMode m => setMode m s
  | Op.uploadImage p i => handleImageUpload p i
  | Op.alSelect p i sid => handleActiveLearningSelect p i sid
  | Op.addBox cid types b => (handleMouseUp b cid types s).2
  | Op.removeBox i => handleRemoveAnnot i s
  | Op.saveAll outcome => (handleSaveAnnotations outcome s).2.1
  | Op.skipImg => (handleSkip s).2

/-- Whether an operation is a mode switch. -/
def isSelectModeOp : Op → Bool
  | Op.selectMode _ => true
  | _ => false

/-- The session reached from the initial state by a sequence of operations. -/
def runTrace (ops : List Op) : LabelingSession :=
  ops.foldl (fun s op => step op s) initialSession

/-- `getCanvasCoordinates` inputs: mouse event position, canvas bounding rect,
canvas size, image size, zoom scale and pan offset (image-canvas.tsx state). -/
structure CanvasEnv where
  clientX : ℚ
  clientY : ℚ
  rectLeft : ℚ
  rectTop : ℚ
  canvasWidth : ℚ
  canvasHeight : ℚ
  imageWidth : ℚ
  imageHeight : ℚ
  scale : ℚ
  offsetX : ℚ
  offsetY : ℚ

/-- `Math.max(0, Math.min(1, v))`. -/
def clamp01 (v : ℚ) : ℚ := max 0 (min 1 v)

/-- `getCanvasCoordinates(e)` of image-canvas.tsx: screen position mapped to
normalized image coordinates and clamped to the unit square. -/
def getCanvasCoordinates (e : CanvasEnv) : ℚ × ℚ :=
  let mouseX := e.clientX - e.rectLeft
  let mouseY := e.clientY - e.rectTop
  let scaledWidth := e.imageWidth * e.scale
  let scaledHeight := e.imageHeight * e.scale
  let x := (e.canvasWidth - scaledWidth) / 2 + e.offsetX
  let y := (e.canvasHeight - scaledHeight) / 2 + e.offsetY
  (clamp01 ((mouseX - x) / scaledWidth), clamp01 ((mouseY - y) / scaledHeight))

/-- The box built by `handleMouseMove` from the drag-start corner and the
current mouse position: componentwise min/max of the two corners. -/
def dragBox (drawStart coords : ℚ × ℚ) : Box :=
  { x1 := min drawStart.1 coords.1
    y1 := min drawStart.2 coords.2
    x2 := max drawStart.1 coords.1
    y2 := max drawStart.2 coords.2 }

/-- A sample defect type used by the concrete instantiations below. -/
def crackType : CustomDefectType :=
  { id := 1
    name := "crack"
    code := "CR"
    color := some "#ff0000"
    is_active := true
    min_samples_required := 50
    current_sample_count := 3 }

/-- A sample well-sized annotation. -/
def sampleAnnot : Annot :=
  { bbox := { x1 := 1/10, y1 := 1/10, x2 := 3/10, y2 := 3/10 }
    class_id := 1
    class_name := "crack" }

/-- A second sample annotation. -/
def sampleAnnot2 : Annot :=
  { bbox := { x1 := 4/10, y1 := 4/10, x2 := 6/10, y2 := 6/10 }
    class_id := 1
    class_name := "crack" }

/-- An active-learning session with one annotation. -/
def sessionAL : LabelingSession :=
  { mode := Mode.active_learning
    currentImagePath := some "p.png"
    currentImageId := some "img7"
    currentSuggestionId := some 42
    annotations := [sampleAnnot] }

/-- A manual session with two annotations. -/
def sessionTwo : LabelingSession :=
  { mode := Mode.manual
    currentImagePath := some "q.png"
    currentImageId := some "img8"
    currentSuggestionId := none
    annotations := [sampleAnnot, sampleAnnot2] }

end Labeling

namespace Labeling

/-- The invariant claimed in the spec's data model: a suggestion id is present
only while the session is in active-learning mode. -/
def suggestionInv (s : LabelingSession) : Prop :=
  s.currentSuggestionId ≠ none → s.mode = Mode.active_learning

theorem runCommits_all_succeed (outcome : ℕ → Bool) (s : LabelingSession) (path : String)
    (hall : ∀ i, outcome i = true) (l : List Annot) :
    ∀ i : ℕ, runCommits outcome s path l i = (l.map (mkCommit s path), true) := by
  induction l with
  | nil => intro i; rfl
  | cons a rest ih =>
    intro i
    simp [runCommits, hall i, ih (i + 1)]

theorem runCommits_first_fail (outcome : ℕ → Bool) (s : LabelingSession) (path : String)
    (l : List Annot) :
    ∀ i k : ℕ, k < l.length → (∀ j, j < k → outcome (i + j) = true) →
      outcome (i + k) = false →
      runCommits outcome s path l i = ((l.take (k + 1)).map (mkCommit s path), false) := by
  induction l with
  | nil =>
    intro i k hk _ _
    simp at hk
  | cons a rest ih =>
    intro i k hk hbefore hfail
    cases k with
    | zero =>
      have h0 : outcome i = false := by simpa using hfail
      simp [runCommits, h0]
    | succ m =>
      have h0 : outcome i = true := by simpa using hbefore 0 (Nat.succ_pos m)
      have hb : ∀ j, j < m → outcome (i + 1 + j) = true := by
        intro j hj
        have := hbefore (j + 1) (Nat.succ_lt_succ hj)
        have harith : i + (j + 1) = i + 1 + j := by omega
        rwa [harith] at this
      have hf : outcome (i + 1 + m) = false := by
        have harith : i + (m + 1) = i + 1 + m := by omega
        rwa [harith] at hfail
      have ihm := ih (i + 1) m (by simpa using hk) hb hf
      simp [runCommits, h0, ihm]

end Labeling

namespace Labeling

theorem removeAux_oor (idx : ℤ) (l : List Annot) :
    ∀ n : ℕ, (idx < (n : ℤ) ∨ ((n : ℤ) + l.length ≤ idx)) →
      ((List.enumFrom n l).filter (fun p => !((p.1 : ℤ) == idx))).map Prod.snd = l := by
  induction l with
  | nil => intro n _; rfl
  | cons a rest ih =>
    intro n h
    have hne : (((n : ℤ)) == idx) = false := by
      rw [beq_eq_false_iff_ne]
      intro he
      rcases h with h | h
      · omega
      · have : ((n : ℤ)) + (rest.length + 1) ≤ idx := by
          simpa [Nat.cast_add] using h
        omega
    have h' : idx < ((n + 1 : ℕ) : ℤ) ∨ (((n + 1 : ℕ) : ℤ) + rest.length ≤ idx) := by
      rcases h with h | h
      · left; push_cast; omega
      · right
        have : ((n : ℤ)) + (rest.length + 1) ≤ idx := by
          simpa [Nat.cast_add] using h
        push_cast
        omega
    simp [List.enumFrom, List.filter, hne, ih (n + 1) h']

theorem removeAux_in (idx : ℤ) (l : List Annot) :
    ∀ k n : ℕ, idx = (n : ℤ) + k → k < l.length →
      ((List.enumFrom n l).filter (fun p => !((p.1 : ℤ) == idx))).map Prod.snd
        = l.take k ++ l.drop (k + 1) := by
  induction l with
  | nil =>
    intro k n _ hk
    simp at hk
  | cons a rest ih =>
    intro k n heq hk
    cases k with
    | zero =>
      have hbeq : (((n : ℤ)) == idx) = true := by
        rw [beq_iff_eq]; omega
      have hoor := removeAux_oor idx rest (n + 1) (Or.inl (by push_cast; omega))
      simp [List.enumFrom, List.filter, hbeq, hoor]
    | succ m =>
      have hbeq : (((n : ℤ)) == idx) = false := by
        rw [beq_eq_false_iff_ne]
        push_cast at heq
        omega
      have ih' := ih m (n + 1) (by push_cast at heq ⊢; omega) (by simpa using hk)
      simp [List.enumFrom, List.filter, hbeq, ih']

theorem removeAtIdx_eq (idx : ℤ) (l : List Annot) :
    removeAtIdx idx l =
      if 0 ≤ idx ∧ idx < (l.length : ℤ) then
        l.take idx.toNat ++ l.drop (idx.toNat + 1)
      else l := by
  unfold removeAtIdx
  have henum : l.enum = List.enumFrom 0 l := rfl
  rw [henum]
  split
  case isTrue h =>
    have hk : idx = ((0 : ℕ) : ℤ) + idx.toNat := by omega
    have hlt : idx.toNat < l.length := by omega
    simpa using removeAux_in idx l idx.toNat 0 hk hlt
  case isFalse h =>
    apply removeAux_oor idx l 0
    push_cast
    omega

end Labeling

namespace Labeling

theorem handleMouseUp_eq (b : Box) (cid : Option ℤ) (types : List CustomDefectType)
    (s : LabelingSession) :
    handleMouseUp b cid types s =
      if (5/1000 : ℚ) < b.x2 - b.x1 ∧ (5/1000 : ℚ) < b.y2 - b.y1 then
        (MouseUpResult.delegated (handleAddAnnot cid types b s).1,
         (handleAddAnnot cid types b s).2)
      else
        (MouseUpResult.boxTooSmall, s) := rfl

theorem handleAddAnnot_preserves_fields (cid : Option ℤ) (types : List CustomDefectType)
    (b : Box) (s : LabelingSession) :
    (handleAddAnnot cid types b s).2.mode = s.mode ∧
    (handleAddAnnot cid types b s).2.currentSuggestionId = s.currentSuggestionId := by
  unfold handleAddAnnot
  split
  · exact ⟨rfl, rfl⟩
  · split
    · exact ⟨rfl, rfl⟩
    · split
      · exact ⟨rfl, rfl⟩
      · exact ⟨rfl, rfl⟩

theorem handleMouseUp_preserves_fields (b : Box) (cid : Option ℤ)
    (types : List CustomDefectType) (s : LabelingSession) :
    (handleMouseUp b cid types s).2.mode = s.mode ∧
    (handleMouseUp b cid types s).2.currentSuggestionId = s.currentSuggestionId := by
  rw [handleMouseUp_eq]
  split
  · exact handleAddAnnot_preserves_fields cid types b s
  · exact ⟨rfl, rfl⟩

theorem handleSaveAnnotations_session_cases (outcome : ℕ → Bool) (s : LabelingSession) :
    (handleSaveAnnotations outcome s).2.1 = s ∨
    (handleSaveAnnotations outcome s).2.1 = initialSession := by
  unfold handleSaveAnnotations
  cases s.currentImagePath with
  | none => exact Or.inl rfl
  | some path =>
    by_cases hg : (path == "" || s.annotations.length == 0) = true
    · simp [hg]
    · simp only [hg]
      by_cases hr : (runCommits outcome s path s.annotations 0).2 = true
      · simp [hr]
      · simp [hr]

theorem step_preserves_suggestionInv (op : Op) (s : LabelingSession)
    (hop : isSelectModeOp op = false) (hs : suggestionInv s) :
    suggestionInv (step op s) := by
  cases op with
  | selectMode m => simp [isSelectModeOp] at hop
  | uploadImage p i =>
    intro h
    simp [step, handleImageUpload] at h
  | alSelect p i sid =>
    intro _
    rfl
  | addBox cid types b =>
    intro h
    have hf := handleMouseUp_preserves_fields b cid types s
    have hstep : step (Op.addBox cid types b) s = (handleMouseUp b cid types s).2 := rfl
    rw [hstep] at h ⊢
    rw [hf.2] at h
    rw [hf.1]
    exact hs h
  | removeBox i =>
    intro h
    exact hs h
  | saveAll outcome =>
    intro h
    rcases handleSaveAnnotations_session_cases outcome s with hc | hc
    · rw [show step (Op.saveAll outcome) s = (handleSaveAnnotations outcome s).2.1 from rfl, hc] at h ⊢
      exact hs h
    · rw [show step (Op.saveAll outcome) s = (handleSaveAnnotations outcome s).2.1 from rfl, hc] at h ⊢
      simp [initialSession] at h
  | skipImg =>
    intro h
    simp [step, handleSkip, initialSession] at h

theorem runTrace_suggestionInv_aux (ops : List Op) :
    ∀ s : LabelingSession, (∀ op ∈ ops, isSelectModeOp op = false) →
      suggestionInv s → suggestionInv (ops.foldl (fun s op => step op s) s) := by
  induction ops with
  | nil => intro s _ hs; exact hs
  | cons op rest ih =>
    intro s hops hs
    simp only [List.foldl_cons]
    exact ih (step op s)
      (fun o ho => hops o (List.mem_cons_of_mem _ ho))
      (step_preserves_suggestionInv op s (hops op (List.mem_cons_self _ _)) hs)

end Labeling

namespace Labeling

/-- Claim C5, as stated, is false: `selectMode` preserves
`currentSuggestionId`, so acquiring an image from the active-learning feed
and then switching the mode button to Manual reaches a state whose
suggestion id is still set while `mode = Manual`. -/
theorem C5_counterexample :
    (runTrace [Op.alSelect "p.png" "img7" 42, Op.selectMode Mode.manual]).currentSuggestionId
        = some 42 ∧
    (runTrace [Op.alSelect "p.png" "img7" 42, Op.selectMode Mode.manual]).mode = Mode.manual :=
  ⟨rfl, rfl⟩

/-- Claim C5 (amended): in every session state reachable through the
operations without using `selectMode`, `currentSuggestionId` is set only when
`mode = ActiveLearning`; `selectMode` itself clears nothing and preserves
`currentSuggestionId`, which is exactly how the invariant can be broken. -/
theorem C5_suggestion_invariant (ops : List Op)
    (hops : ∀ op ∈ ops, isSelectModeOp op = false) :
    (runTrace ops).currentSuggestionId ≠ none →
      (runTrace ops).mode = Mode.active_learning :=
  runTrace_suggestionInv_aux ops initialSession hops (fun h => absurd rfl h)

/-- Witness for C5: a trace that acquires a suggestion and does not switch
modes ends in active-learning mode with the suggestion id set. -/
theorem C5_suggestion_invariant_witness :
    (runTrace [Op.alSelect "p.png" "img7" 42]).mode = Mode.active_learning :=
  C5_suggestion_invariant [Op.alSelect "p.png" "img7" 42] (by decide) (by decide)

/-- Claim C8 (confirmed): `removeAnnotation(i)` removes exactly the entry at
position `i` when `0 ≤ i < length`, keeping all other entries in their
relative order, and is a no-op for every out-of-range index, negative
included. -/
theorem C8_remove_characterized (s : LabelingSession) (idx : ℤ) :
    handleRemoveAnnot idx s =
      { s with annotations :=
          if 0 ≤ idx ∧ idx < (s.annotations.length : ℤ) then
            s.annotations.take idx.toNat ++ s.annotations.drop (idx.toNat + 1)
          else s.annotations } := by
  unfold handleRemoveAnnot
  rw [removeAtIdx_eq]

theorem clamp01_nonneg (v : ℚ) : 0 ≤ clamp01 v :=
  le_max_left 0 _

theorem clamp01_le_one (v : ℚ) : clamp01 v ≤ 1 :=
  max_le (by norm_num) (min_le_left 1 v)

/-- Claim C9 (confirmed): the drag box is the componentwise min/max of the
two corners, hence invariant under swapping them, and both normalized
coordinates produced by `getCanvasCoordinates` are clamped into `[0, 1]`. -/
theorem C9_drag_geometry (p q : ℚ × ℚ) (e : CanvasEnv) :
    dragBox p q = dragBox q p ∧
    0 ≤ (getCanvasCoordinates e).1 ∧ (getCanvasCoordinates e).1 ≤ 1 ∧
    0 ≤ (getCanvasCoordinates e).2 ∧ (getCanvasCoordinates e).2 ≤ 1 := by
  refine ⟨?_, clamp01_nonneg _, clamp01_le_one _, clamp01_nonneg _, clamp01_le_one _⟩
  simp [dragBox, min_comm, max_comm]

/-- Claim C3, as stated, is false: in `handleSkip` the call to the
active-learning skip endpoint is commented out (`// TODO: Call skip endpoint
when available`), so on a session in active-learning mode with suggestion id
42 the queue receives zero `markSkipped` calls, not one. -/
theorem C3_counterexample :
    sessionAL.mode = Mode.active_learning ∧
    sessionAL.currentSuggestionId = some 42 ∧
    (handleSkip sessionAL).1 = [] :=
  ⟨rfl, rfl, rfl⟩

/-- Claim C3 (amended): `skip()` never notifies the active-learning queue
(the `markSkipped` call is not implemented), and it unconditionally resets
the session to the initial `Empty` state (which also sets `mode` back to
Manual). -/
theorem C3_skip_never_notifies (s : LabelingSession) :
    handleSkip s = ([], initialSession) := by
  simp [handleSkip]

/-- Claim C10, as stated, is false: when the selected class id is `0` (JS
treats `0` as falsy in `if (!selectedClassId)`), `handleAddAnnotation`
reports the `NoClassSelected` alert even though the id simply matches no
defect type in the registry list — the no-op is not silent there. -/
theorem C10_counterexample :
    ([crackType].all (fun t => !(t.id == 0))) = true ∧
    handleAddAnnot (some 0) [crackType] sampleAnnot.bbox sessionAL =
      (AddOutcome.noClassSelected, sessionAL) :=
  ⟨rfl, rfl⟩

/-- Claim C10 (amended): for every selected class id other than `0` that
matches no defect type in the loaded registry list, `handleAddAnnotation` is
a silent no-op — the `find` miss hits the bare `return`, so no alert is
raised and the session (hence the annotation count) is unchanged. -/
theorem C10_unknown_class_silent (cid : ℤ) (types : List CustomDefectType)
    (b : Box) (s : LabelingSession)
    (hz : cid ≠ 0) (hnf : types.find? (fun t => t.id == cid) = none) :
    handleAddAnnot (some cid) types b s = (AddOutcome.classNotFound, s) := by
  have hnum : numTruthy (some cid) = true := by
    simp [numTruthy, hz]
  unfold handleAddAnnot
  simp [hnum, hnf]

/-- Witness for C10: selected class id 2 does not occur in the registry list
`[crackType]`; the call leaves the session unchanged and raises nothing. -/
theorem C10_unknown_class_silent_witness :
    handleAddAnnot (some 2) [crackType] sampleAnnot.bbox sessionAL =
      (AddOutcome.classNotFound, sessionAL) :=
  C10_unknown_class_silent 2 [crackType] sampleAnnot.bbox sessionAL (by decide) rfl

/-- Claim C6 (confirmed): `save()` on a session with zero annotations takes
the guard branch (`EmptyAnnotationSet` alert), issues no commit to the
Sample Store, and leaves the session unchanged. -/
theorem C6_empty_save_rejected (outcome : ℕ → Bool) (s : LabelingSession)
    (h : s.annotations = []) :
    handleSaveAnnotations outcome s = (SaveOutcome.emptyAnnotationSet, s, []) := by
  unfold handleSaveAnnotations
  cases him : s.currentImagePath with
  | none => rfl
  | some path => simp [h]

/-- Witness for C6: saving right after an upload (image loaded, zero
annotations) is rejected with no store call and no state change. -/
theorem C6_empty_save_rejected_witness :
    handleSaveAnnotations (fun _ => true) (handleImageUpload "p.png" "img1") =
      (SaveOutcome.emptyAnnotationSet, handleImageUpload "p.png" "img1", []) :=
  C6_empty_save_rejected (fun _ => true) (handleImageUpload "p.png" "img1") rfl

end Labeling

namespace Labeling

/-- Claim C1, as stated, is false: the success branch of save() runs
`setSession({ mode: 'manual', annotations: [] })`, so a fully successful
save of an active-learning session comes back with `mode = Manual`, not
with the pre-save mode. -/
theorem C1_counterexample :
    (handleSaveAnnotations (fun _ => true) sessionAL).1 = SaveOutcome.success ∧
    sessionAL.mode = Mode.active_learning ∧
    (handleSaveAnnotations (fun _ => true) sessionAL).2.1.mode = Mode.manual :=
  ⟨rfl, rfl, rfl⟩

/-- Claim C1 (amended): for every session in the `ImageLoaded` state with at
least one annotation, a fully successful save() leaves the session equal to
the initial `Empty` state — image reference, image id and suggestion id
cleared and the annotation sequence empty — with `mode` reset to Manual
(so the pre-save mode is preserved only when it already was Manual). -/
theorem C1_save_success_resets (outcome : ℕ → Bool) (s : LabelingSession)
    (path : String) (him : s.currentImagePath = some path) (hpe : path ≠ "")
    (hn : s.annotations ≠ []) (hall : ∀ i, outcome i = true) :
    (handleSaveAnnotations outcome s).1 = SaveOutcome.success ∧
    (handleSaveAnnotations outcome s).2.1 = initialSession := by
  have h1 : (path == "") = false := by simp [hpe]
  have h2 : (s.annotations.length == 0) = false := by
    simp [hn]
  have hrun := runCommits_all_succeed outcome s path hall s.annotations 0
  unfold handleSaveAnnotations
  rw [him]
  simp [h1, h2, hrun]

/-- Witness for C1: a manual two-annotation session whose commits all succeed
saves successfully and resets to the initial state. -/
theorem C1_save_success_resets_witness :
    (handleSaveAnnotations (fun _ => true) sessionTwo).1 = SaveOutcome.success ∧
    (handleSaveAnnotations (fun _ => true) sessionTwo).2.1 = initialSession :=
  C1_save_success_resets (fun _ => true) sessionTwo "q.png" rfl (by decide) (by decide)
    (fun _ => rfl)

theorem handleSaveAnnotations_some_eq (outcome : ℕ → Bool) (s : LabelingSession)
    (path : String) (him : s.currentImagePath = some path) :
    handleSaveAnnotations outcome s =
      if path == "" || s.annotations.length == 0 then
        (SaveOutcome.emptyAnnotationSet, s, [])
      else if (runCommits outcome s path s.annotations 0).2 then
        (SaveOutcome.success, initialSession, (runCommits outcome s path s.annotations 0).1)
      else
        (SaveOutcome.commitFailed, s, (runCommits outcome s path s.annotations 0).1) := by
  unfold handleSaveAnnotations
  rw [him]

/-- Claim C7 (confirmed): whenever save() ends in `CommitFailed`, the session
is returned exactly as it was — still image-loaded (truthy image path) with
its full, unmodified annotation sequence — so the user can retry or skip. -/
theorem C7_failed_save_preserves_session (outcome : ℕ → Bool) (s : LabelingSession)
    (h : (handleSaveAnnotations outcome s).1 = SaveOutcome.commitFailed) :
    (handleSaveAnnotations outcome s).2.1 = s ∧
    strTruthy s.currentImagePath = true ∧ s.annotations ≠ [] := by
  cases him : s.currentImagePath with
  | none =>
    unfold handleSaveAnnotations at h
    rw [him] at h
    simp at h
  | some path =>
    rw [handleSaveAnnotations_some_eq outcome s path him] at h ⊢
    by_cases hg : (path == "" || s.annotations.length == 0) = true
    · rw [if_pos hg] at h
      simp at h
    · rw [if_neg hg] at h ⊢
      by_cases hr : (runCommits outcome s path s.annotations 0).2 = true
      · rw [if_pos hr] at h
        simp at h
      · rw [if_neg hr] at h ⊢
        simp only [Bool.or_eq_true, beq_iff_eq, not_or] at hg
        refine ⟨rfl, ?_, ?_⟩
        · simpa [strTruthy] using hg.1
        · intro hnil
          apply hg.2
          simp [hnil]

/-- Witness for C7: a one-annotation session whose single commit fails is
handed back unchanged, image still loaded and annotation intact. -/
theorem C7_failed_save_preserves_session_witness :
    (handleSaveAnnotations (fun _ => false) sessionAL).2.1 = sessionAL ∧
    strTruthy sessionAL.currentImagePath = true ∧ sessionAL.annotations ≠ [] :=
  C7_failed_save_preserves_session (fun _ => false) sessionAL rfl

/-- Claim C4, as stated, is false: the save loop awaits each commit in order
and the first rejection throws out of the loop, so on a two-annotation
session whose first commit fails only one commit is ever attempted — not one
per annotation. -/
theorem C4_counterexample :
    sessionTwo.annotations.length = 2 ∧
    (handleSaveAnnotations (fun _ => false) sessionTwo).1 = SaveOutcome.commitFailed ∧
    (handleSaveAnnotations (fun _ => false) sessionTwo).2.2.length = 1 :=
  ⟨rfl, rfl, rfl⟩

/-- Claim C4 (amended): commits are attempted sequentially in annotation
order and halt at the first failure — the failing annotation's commit is the
last one attempted, later annotations are never sent — while the operation
reports failure and the earlier, already-successful commits are not rolled
back (they remain issued to the store). -/
theorem C4_commits_halt_at_first_failure (outcome : ℕ → Bool) (s : LabelingSession)
    (path : String) (k : ℕ)
    (him : s.currentImagePath = some path) (hpe : path ≠ "")
    (hk : k < s.annotations.length)
    (hbefore : ∀ j, j < k → outcome j = true) (hfail : outcome k = false) :
    (handleSaveAnnotations outcome s).1 = SaveOutcome.commitFailed ∧
    (handleSaveAnnotations outcome s).2.1 = s ∧
    (handleSaveAnnotations outcome s).2.2
      = (s.annotations.take (k + 1)).map (mkCommit s path) := by
  have h1 : (path == "") = false := by simp [hpe]
  have h2 : (s.annotations.length == 0) = false := by
    simp only [beq_eq_false_iff_ne, ne_eq]
    omega
  have hrun := runCommits_first_fail outcome s path s.annotations 0 k hk
    (fun j hj => by simpa using hbefore j hj)
    (by simpa using hfail)
  unfold handleSaveAnnotations
  rw [him]
  simp [h1, h2, hrun]

/-- Witness for C4: on the two-annotation session, with the store accepting
the first commit and rejecting the second, save() fails, the session is kept,
and exactly the first two commits (the success and the failure) were
attempted. -/
theorem C4_commits_halt_at_first_failure_witness :
    (handleSaveAnnotations (fun i => i == 0) sessionTwo).1 = SaveOutcome.commitFailed ∧
    (handleSaveAnnotations (fun i => i == 0) sessionTwo).2.1 = sessionTwo ∧
    (handleSaveAnnotations (fun i => i == 0) sessionTwo).2.2
      = (sessionTwo.annotations.take 2).map (mkCommit sessionTwo "q.png") :=
  C4_commits_halt_at_first_failure (fun i => i == 0) sessionTwo "q.png" 1 rfl
    (by decide) (by decide)
    (fun j hj => by
      have hj0 : j = 0 := by omega
      subst hj0
      rfl)
    rfl

end Labeling

namespace Labeling

/-- Claim C2, as stated, is false at the boundary: the canvas check is the
strict `width > 0.005 && height > 0.005`, so a box whose normalized width and
height are both exactly `0.005` (hence ≥ 0.005, which the claim says is
appended) is rejected and the annotation count is unchanged. -/
theorem C2_counterexample :
    ({ x1 := 0, y1 := 0, x2 := 5/1000, y2 := 5/1000 } : Box).x2
        - ({ x1 := 0, y1 := 0, x2 := 5/1000, y2 := 5/1000 } : Box).x1 = 5/1000 ∧
    ({ x1 := 0, y1 := 0, x2 := 5/1000, y2 := 5/1000 } : Box).y2
        - ({ x1 := 0, y1 := 0, x2 := 5/1000, y2 := 5/1000 } : Box).y1 = 5/1000 ∧
    handleMouseUp { x1 := 0, y1 := 0, x2 := 5/1000, y2 := 5/1000 } (some 1) [crackType]
        sessionAL = (MouseUpResult.boxTooSmall, sessionAL) := by
  refine ⟨by norm_num, by norm_num, ?_⟩
  rw [handleMouseUp_eq]
  norm_num

/-- Claim C2 (amended): with a valid class selected (a nonzero id present in
the registry list), a drawn box is appended as exactly one new annotation —
increasing the count by one — precisely when both normalized dimensions
strictly exceed 0.005; otherwise (either dimension ≤ 0.005, boundary
included) the box is dropped in the `BoxTooSmall` branch, the count is
unchanged, and `onAddAnnotation` is never invoked. -/
theorem C2_threshold_strict (cb : Box) (cid : ℤ) (dt : CustomDefectType)
    (types : List CustomDefectType) (s : LabelingSession)
    (hz : cid ≠ 0) (hf : types.find? (fun t => t.id == cid) = some dt) :
    handleMouseUp cb (some cid) types s =
      if (5/1000 : ℚ) < cb.x2 - cb.x1 ∧ (5/1000 : ℚ) < cb.y2 - cb.y1 then
        (MouseUpResult.delegated AddOutcome.added,
         { s with annotations := s.annotations ++
            [{ bbox := cb, class_id := cid, class_name := dt.name }] })
      else
        (MouseUpResult.boxTooSmall, s) := by
  have hnum : numTruthy (some cid) = true := by simp [numTruthy, hz]
  have hadd : handleAddAnnot (some cid) types cb s =
      (AddOutcome.added,
       { s with annotations := s.annotations ++
          [{ bbox := cb, class_id := cid, class_name := dt.name }] }) := by
    unfold handleAddAnnot
    simp [hnum, hf]
  rw [handleMouseUp_eq, hadd]

/-- Witness for C2: a 0.1 × 0.2 box with the registered class 1 selected is
appended as exactly one new annotation. -/
theorem C2_threshold_strict_witness :
    handleMouseUp { x1 := 0, y1 := 0, x2 := 1/10, y2 := 2/10 } (some 1) [crackType]
        sessionAL =
      (MouseUpResult.delegated AddOutcome.added,
       { sessionAL with annotations := sessionAL.annotations ++
          [{ bbox := { x1 := 0, y1 := 0, x2 := 1/10, y2 := 2/10 }, class_id := 1,
             class_name := "crack" }] }) := by
  rw [C2_threshold_strict { x1 := 0, y1 := 0, x2 := 1/10, y2 := 2/10 } 1 crackType
    [crackType] sessionAL (by decide) rfl]
  norm_num [crackType]

end Labeling
